import Mathlib

/-!
Verification of the webwormhole webdriver smoke test (`webdriver/smoke.py`).

The script is a straight-line program driving two browser sessions
(`driver1`, the initiator; `driver2`, the responder) through the pairing
protocol of the application under test, then sending a file and comparing
it against the responder's download.

Shallow embedding: all interaction with the outside world (the element
texts the initiator's `info` element shows at each poll, the value of the
`magiccode` element, the visibility of the `top` element in each session at
each poll, and the file the responder's browser downloads) is an
environment `Env`.  `run : Env → List Event × Outcome` replays the script
against an environment, recording every externally visible action as an
`Event` and the script's final outcome.

Timing model: `WebDriverWait(driver, 10)` polls its condition every 0.5
seconds (the selenium default) until the 10 second deadline, so a bounded
wait is modelled as scanning polls `0, 1, …, 2·timeout - 1` for the first
one satisfying the condition; the observable element state at poll `t` is
given by the environment.  `driver.quit()` and the selenium element
actions (`get`, `click`, `send_keys`) are external capability calls and
are modelled as always completing; the `TemporaryDirectory` finalizers run
at interpreter shutdown, which is part of the single run-to-completion
process, so both scratch directories are removed at the end of the trace.
-/

namespace WWSmoke

/-- Python `needle in hay` on strings, as used by selenium's
`text_to_be_present_in_element`: substring containment. -/
def containsSub (needle hay : String) : Bool :=
  decide (needle.toList <:+: hay.toList)

/-- Python `hay.startswith(needle)`, as used by the line-61 assertion. -/
def startsWithStr (needle hay : String) : Bool :=
  needle.toList.isPrefixOf hay.toList

/-- A regular file on disk, as far as `filecmp.cmp` can observe it:
its content bytes and its stat modification time. -/
structure FileD where
  bytes : List Nat
  mtime : Nat
deriving DecidableEq

/-- The `os.stat` signature `filecmp._sig` computes: (size, mtime).
Both files compared by the script are regular files, so the
`S_IFMT(st_mode)` component is constant and omitted. -/
def sig (f : FileD) : Nat × Nat :=
  (f.bytes.length, f.mtime)

/-- Model of `filecmp.cmp(f1, f2)` with the default `shallow=True`, on two regular
files: if the stat signatures agree the files are reported equal without
reading any bytes; otherwise equal sizes are required and the contents are
compared byte for byte (`filecmp._do_cmp`). -/
def cmp (f1 f2 : FileD) : Bool :=
  if sig f1 = sig f2 then true
  else if f1.bytes.length ≠ f2.bytes.length then false
  else f1.bytes == f2.bytes

/-- The environment a run is played against: everything the script can
observe through the two drivers and the filesystem. -/
structure Env where
  /-- Bytes `os.urandom(100<<10)` produced for the input artifact. -/
  artifact : List Nat
  /-- stat mtime of the written input file `indir/file.bin`. -/
  inMtime : Nat
  /-- Text of the initiator's `info` element at successive reads: polls
  `0, 1, …` of the first wait; the assertion on line 61 re-reads the
  element, observing index `t+1` when the wait was satisfied at poll `t`. -/
  infoText : Nat → String
  /-- Value attribute of the initiator's `magiccode` element. -/
  magiccode : String
  /-- Visibility of the initiator's `top` element at each poll of its wait. -/
  top1Visible : Nat → Bool
  /-- Visibility of the responder's `top` element at each poll of its wait. -/
  top2Visible : Nat → Bool
  /-- The file at `outdir/file.bin` when the comparison runs:
  `none` when the responder's browser never created it. -/
  outFile : Option FileD

/-- The input artifact as a file: the written bytes with their stat mtime. -/
def inFile (env : Env) : FileD :=
  ⟨env.artifact, env.inMtime⟩

/-- Identifies which of the three bounded waits of the script is meant. -/
inductive WaitId
  /-- Line 58: initiator waits for "Waiting for" in the `info` element. -/
  | infoW
  /-- Line 70: initiator waits for its `top` element to become visible. -/
  | top1W
  /-- Line 73: responder waits for its `top` element to become visible. -/
  | top2W
deriving DecidableEq

/-- How a run of the script ends.  The constructor names follow the spec's
error taxonomy; in the script they surface as: `timeout` = selenium
`TimeoutException`, `assertInfoPrefixFailed` = `AssertionError` on line 61,
`emptyCode` = `AssertionError` on line 64, `artifactMissing` =
`FileNotFoundError` raised by `os.stat` inside `filecmp.cmp` on line 80,
`artifactMismatch` = `AssertionError` on line 80. -/
inductive Outcome
  | success
  | timeout (w : WaitId)
  | assertInfoPrefixFailed
  | emptyCode
  | artifactMissing
  | artifactMismatch
deriving DecidableEq

/-- Externally visible actions of the script, in program order. -/
inductive Event
  /-- Creation of the input scratch directory (`tempfile.TemporaryDirectory()`). -/
  | mkScratchIn
  /-- Creation of the output scratch directory (`tempfile.TemporaryDirectory()`). -/
  | mkScratchOut
  /-- Write `n` bytes of `os.urandom` to `indir/file.bin`. -/
  | writeArtifact (n : Nat)
  /-- Launch of the initiator's driver (`webdriver.Chrome(...)`). -/
  | launch1
  /-- Launch of the responder's driver (`webdriver.Chrome(...)`). -/
  | launch2
  /-- Navigation of the initiator to the application entry point. -/
  | navigate1
  /-- Navigation of the responder to the application entry point. -/
  | navigate2
  /-- Initiator clicks its `dial` control. -/
  | clickDial1
  /-- A `WebDriverWait(·, timeoutSecs)` begins polling. -/
  | waitStart (w : WaitId) (timeoutSecs : Nat)
  /-- The wait's condition was satisfied at poll `t`. -/
  | waitHit (w : WaitId) (t : Nat)
  /-- The line-61 assertion reads the `info` element text. -/
  | readInfo (s : String)
  /-- Read of the `magiccode` value attribute from the initiator. -/
  | readCode (c : String)
  /-- Printing of the pairing code (`print(code)`). -/
  | printCode (c : String)
  /-- Typing of the code into the responder's `magiccode` element. -/
  | typeCode (c : String)
  /-- Responder clicks its `dial` control. -/
  | clickDial2
  /-- Selection of the artifact in the initiator's `filepicker` element. -/
  | pickFile
  /-- Fixed sleep of `secs` seconds: the transfer settle window. -/
  | settle (secs : Nat)
  /-- Invocation of `filecmp.cmp(fpath, outdir/file.bin)`. -/
  | compare
  /-- Printing of the success marker. -/
  | printSuccess
  /-- Quit of the initiator's driver in the `finally` block. -/
  | quit1
  /-- Quit of the responder's driver in the `finally` block. -/
  | quit2
  /-- The input `TemporaryDirectory` is removed at interpreter shutdown. -/
  | rmScratchIn
  /-- The output `TemporaryDirectory` is removed at interpreter shutdown. -/
  | rmScratchOut
deriving DecidableEq

/-- Model of `WebDriverWait(driver, timeoutSecs).until(cond)`: with the default
0.5 s poll frequency the condition is evaluated at polls
`0, …, 2·timeoutSecs - 1`; the first satisfying poll is returned, `none`
is a `TimeoutException`. -/
def wait (timeoutSecs : Nat) (p : Nat → Bool) : Option Nat :=
  (List.range (2 * timeoutSecs)).find? p

/-- Result of the line-58 wait: first poll at which the `info` text
contains `"Waiting for"`. -/
def infoRes (env : Env) : Option Nat :=
  wait 10 fun t => containsSub "Waiting for" (env.infoText t)

/-- Result of the line-70 wait on the initiator's `top` visibility. -/
def top1Res (env : Env) : Option Nat :=
  wait 10 env.top1Visible

/-- Result of the line-73 wait on the responder's `top` visibility. -/
def top2Res (env : Env) : Option Nat :=
  wait 10 env.top2Visible

/-- The `try` block of the script (lines 54-82): the trace of actions it
performs and the outcome it ends with. -/
def bodyRun (env : Env) : List Event × Outcome :=
  match infoRes env with
  | none =>
    ([.navigate1, .navigate2, .clickDial1, .waitStart .infoW 10],
     .timeout .infoW)
  | some t =>
    if startsWithStr "Waiting for the other" (env.infoText (t + 1)) then
      if env.magiccode.length = 0 then
        ([.navigate1, .navigate2, .clickDial1, .waitStart .infoW 10,
          .waitHit .infoW t, .readInfo (env.infoText (t + 1)),
          .readCode env.magiccode],
         .emptyCode)
      else
        match top1Res env with
        | none =>
          ([.navigate1, .navigate2, .clickDial1, .waitStart .infoW 10,
            .waitHit .infoW t, .readInfo (env.infoText (t + 1)),
            .readCode env.magiccode, .printCode env.magiccode,
            .typeCode env.magiccode, .clickDial2, .waitStart .top1W 10],
           .timeout .top1W)
        | some t1 =>
          match top2Res env with
          | none =>
            ([.navigate1, .navigate2, .clickDial1, .waitStart .infoW 10,
              .waitHit .infoW t, .readInfo (env.infoText (t + 1)),
              .readCode env.magiccode, .printCode env.magiccode,
              .typeCode env.magiccode, .clickDial2, .waitStart .top1W 10,
              .waitHit .top1W t1, .waitStart .top2W 10],
             .timeout .top2W)
          | some t2 =>
            match env.outFile with
            | none =>
              ([.navigate1, .navigate2, .clickDial1, .waitStart .infoW 10,
                .waitHit .infoW t, .readInfo (env.infoText (t + 1)),
                .readCode env.magiccode, .printCode env.magiccode,
                .typeCode env.magiccode, .clickDial2, .waitStart .top1W 10,
                .waitHit .top1W t1, .waitStart .top2W 10,
                .waitHit .top2W t2, .pickFile, .settle 3, .compare],
               .artifactMissing)
            | some f =>
              if cmp (inFile env) f then
                ([.navigate1, .navigate2, .clickDial1, .waitStart .infoW 10,
                  .waitHit .infoW t, .readInfo (env.infoText (t + 1)),
                  .readCode env.magiccode, .printCode env.magiccode,
                  .typeCode env.magiccode, .clickDial2, .waitStart .top1W 10,
                  .waitHit .top1W t1, .waitStart .top2W 10,
                  .waitHit .top2W t2, .pickFile, .settle 3, .compare,
                  .printSuccess],
                 .success)
              else
                ([.navigate1, .navigate2, .clickDial1, .waitStart .infoW 10,
                  .waitHit .infoW t, .readInfo (env.infoText (t + 1)),
                  .readCode env.magiccode, .printCode env.magiccode,
                  .typeCode env.magiccode, .clickDial2, .waitStart .top1W 10,
                  .waitHit .top1W t1, .waitStart .top2W 10,
                  .waitHit .top2W t2, .pickFile, .settle 3, .compare],
                 .artifactMismatch)
    else
      ([.navigate1, .navigate2, .clickDial1, .waitStart .infoW 10,
        .waitHit .infoW t, .readInfo (env.infoText (t + 1))],
       .assertInfoPrefixFailed)

/-- Setup actions before the `try` block (lines 26-49). -/
def setupTrace : List Event :=
  [.mkScratchIn, .mkScratchOut, .writeArtifact (100 <<< 10),
   .launch1, .launch2]

/-- Teardown: the `finally` block quits both drivers, then the
`TemporaryDirectory` finalizers remove both scratch directories at
interpreter shutdown. -/
def teardownTrace : List Event :=
  [.quit1, .quit2, .rmScratchIn, .rmScratchOut]

/-- One whole run of `smoke.py` against an environment: setup, the `try`
block, teardown; the process outcome is the `try` block's outcome, which
the `finally` block re-raises unchanged. -/
def run (env : Env) : List Event × Outcome :=
  (setupTrace ++ (bodyRun env).1 ++ teardownTrace, (bodyRun env).2)

/-- A bounded wait times out when no poll within the window satisfies the
condition. -/
theorem wait_eq_none {n : Nat} {p : Nat → Bool}
    (h : ∀ t < 2 * n, p t = false) : wait n p = none := by
  unfold wait
  rw [List.find?_eq_none]
  intro x hx
  rw [List.mem_range] at hx
  simp [h x hx]

/-- A satisfied bounded wait returns a poll inside the window at which the
condition held. -/
theorem wait_eq_some {n : Nat} {p : Nat → Bool} {t : Nat}
    (h : wait n p = some t) : t < 2 * n ∧ p t = true := by
  unfold wait at h
  refine ⟨?_, List.find?_some h⟩
  have := List.mem_of_find?_eq_some h
  rwa [List.mem_range] at this

/-- Claim C2: on every run, whatever the outcome of the protocol body,
both driver sessions are quit and both scratch directories removed by the
end of the trace, and the run's outcome is exactly the body's outcome —
teardown never replaces the original failure. -/
theorem c2_teardown_on_every_path (env : Env) :
    Event.quit1 ∈ (run env).1 ∧ Event.quit2 ∈ (run env).1 ∧
    Event.rmScratchIn ∈ (run env).1 ∧ Event.rmScratchOut ∈ (run env).1 ∧
    (run env).2 = (bodyRun env).2 := by
  simp [run, teardownTrace]

/-- Claim C3: if no poll within the first wait's window shows an info text
containing "Waiting for", the run fails with a timeout of that wait and no
step of transfer verification (file selection, settle sleep, comparison)
is ever executed. -/
theorem c3_info_timeout (env : Env)
    (h : ∀ t < 20, containsSub "Waiting for" (env.infoText t) = false) :
    (run env).2 = .timeout .infoW ∧
    Event.pickFile ∉ (run env).1 ∧
    (∀ s, Event.settle s ∉ (run env).1) ∧
    Event.compare ∉ (run env).1 := by
  have hi : infoRes env = none := wait_eq_none (by simpa using h)
  simp [run, bodyRun, hi, setupTrace, teardownTrace]

/-- An environment whose info element never shows any text: the first wait
can never be satisfied. -/
def noInfoEnv : Env where
  artifact := [0]
  inMtime := 0
  infoText := fun _ => ""
  magiccode := "7-grim-alpine"
  top1Visible := fun _ => true
  top2Visible := fun _ => true
  outFile := none

theorem c3_info_timeout_witness :
    (∀ t < 20, containsSub "Waiting for" (noInfoEnv.infoText t) = false) ∧
    (run noInfoEnv).2 = .timeout .infoW ∧
    Event.pickFile ∉ (run noInfoEnv).1 ∧
    (∀ s, Event.settle s ∉ (run noInfoEnv).1) ∧
    Event.compare ∉ (run noInfoEnv).1 :=
  ⟨by decide, c3_info_timeout noInfoEnv (by decide)⟩

/-- Claim C4: if the first wait is satisfied, the line-61 assertion passes,
and the pairing code read from the initiator is the empty string, the run
fails with the empty-code assertion, and the responder is never touched:
no code is typed into it and its dial control is never clicked. -/
theorem c4_empty_code (env : Env) (t : Nat) (ht : infoRes env = some t)
    (hp : startsWithStr "Waiting for the other" (env.infoText (t + 1)) = true)
    (hc : env.magiccode = "") :
    (run env).2 = .emptyCode ∧
    (∀ c, Event.typeCode c ∉ (run env).1) ∧
    Event.clickDial2 ∉ (run env).1 := by
  simp [run, bodyRun, ht, hp, hc, setupTrace, teardownTrace]

/-- An environment where the application reaches the waiting state but
surfaces an empty pairing code. -/
def emptyCodeEnv : Env where
  artifact := [0]
  inMtime := 0
  infoText := fun _ => "Waiting for the other side to join."
  magiccode := ""
  top1Visible := fun _ => true
  top2Visible := fun _ => true
  outFile := none

theorem c4_empty_code_witness :
    infoRes emptyCodeEnv = some 0 ∧
    ((run emptyCodeEnv).2 = .emptyCode ∧
     (∀ c, Event.typeCode c ∉ (run emptyCodeEnv).1) ∧
     Event.clickDial2 ∉ (run emptyCodeEnv).1) :=
  ⟨by decide, c4_empty_code emptyCodeEnv 0 (by decide) (by decide) rfl⟩

/-- Claim C9: the first wait is satisfied exactly when some poll in its
window shows an info text containing the substring "Waiting for"; when it
is satisfied but the re-read info text does not start with "Waiting for
the other", the run aborts with the line-61 assertion failure, not with a
timeout. -/
theorem c9_wait_vs_assert (env : Env) :
    ((infoRes env).isSome ↔
      ∃ t < 20, containsSub "Waiting for" (env.infoText t) = true) ∧
    ∀ t, infoRes env = some t →
      containsSub "Waiting for" (env.infoText t) = true ∧
      (startsWithStr "Waiting for the other" (env.infoText (t + 1)) = false →
        (run env).2 = .assertInfoPrefixFailed ∧
        ∀ w, (run env).2 ≠ .timeout w) := by
  constructor
  · unfold infoRes wait
    rw [List.find?_isSome]
    constructor
    · rintro ⟨t, htm, hp⟩
      exact ⟨t, by simpa using List.mem_range.mp htm, hp⟩
    · rintro ⟨t, htl, hp⟩
      exact ⟨t, List.mem_range.mpr (by simpa using htl), hp⟩
  · intro t ht
    refine ⟨(wait_eq_some ht).2, fun hp => ?_⟩
    simp [run, bodyRun, ht, hp]

/-- An environment whose info text contains "Waiting for" but does not
start with "Waiting for the other". -/
def oddInfoEnv : Env where
  artifact := [0]
  inMtime := 0
  infoText := fun _ => "Still Waiting for something"
  magiccode := "7-grim-alpine"
  top1Visible := fun _ => true
  top2Visible := fun _ => true
  outFile := none

theorem c9_wait_vs_assert_witness :
    (infoRes oddInfoEnv).isSome ∧
    (run oddInfoEnv).2 = .assertInfoPrefixFailed ∧
    ∀ w, (run oddInfoEnv).2 ≠ .timeout w :=
  ⟨(c9_wait_vs_assert oddInfoEnv).1.mpr ⟨0, by decide, by decide⟩,
   ((c9_wait_vs_assert oddInfoEnv).2 0 (by decide)).2 (by decide)⟩

/-- Exhaustive enumeration of the eight control-flow paths of a run, each
with its full trace and outcome. -/
theorem run_branches (env : Env) :
    (infoRes env = none ∧
      run env = (setupTrace ++ [.navigate1, .navigate2, .clickDial1,
        .waitStart .infoW 10] ++ teardownTrace, .timeout .infoW)) ∨
    (∃ t, infoRes env = some t ∧
      startsWithStr "Waiting for the other" (env.infoText (t + 1)) = false ∧
      run env = (setupTrace ++ [.navigate1, .navigate2, .clickDial1,
        .waitStart .infoW 10, .waitHit .infoW t,
        .readInfo (env.infoText (t + 1))] ++ teardownTrace,
        .assertInfoPrefixFailed)) ∨
    (∃ t, infoRes env = some t ∧
      startsWithStr "Waiting for the other" (env.infoText (t + 1)) = true ∧
      env.magiccode.length = 0 ∧
      run env = (setupTrace ++ [.navigate1, .navigate2, .clickDial1,
        .waitStart .infoW 10, .waitHit .infoW t,
        .readInfo (env.infoText (t + 1)), .readCode env.magiccode] ++
        teardownTrace, .emptyCode)) ∨
    (∃ t, infoRes env = some t ∧
      startsWithStr "Waiting for the other" (env.infoText (t + 1)) = true ∧
      env.magiccode.length ≠ 0 ∧ top1Res env = none ∧
      run env = (setupTrace ++ [.navigate1, .navigate2, .clickDial1,
        .waitStart .infoW 10, .waitHit .infoW t,
        .readInfo (env.infoText (t + 1)), .readCode env.magiccode,
        .printCode env.magiccode, .typeCode env.magiccode, .clickDial2,
        .waitStart .top1W 10] ++ teardownTrace, .timeout .top1W)) ∨
    (∃ t t1, infoRes env = some t ∧
      startsWithStr "Waiting for the other" (env.infoText (t + 1)) = true ∧
      env.magiccode.length ≠ 0 ∧ top1Res env = some t1 ∧
      top2Res env = none ∧
      run env = (setupTrace ++ [.navigate1, .navigate2, .clickDial1,
        .waitStart .infoW 10, .waitHit .infoW t,
        .readInfo (env.infoText (t + 1)), .readCode env.magiccode,
        .printCode env.magiccode, .typeCode env.magiccode, .clickDial2,
        .waitStart .top1W 10, .waitHit .top1W t1, .waitStart .top2W 10]
        ++ teardownTrace, .timeout .top2W)) ∨
    (∃ t t1 t2, infoRes env = some t ∧
      startsWithStr "Waiting for the other" (env.infoText (t + 1)) = true ∧
      env.magiccode.length ≠ 0 ∧ top1Res env = some t1 ∧
      top2Res env = some t2 ∧ env.outFile = none ∧
      run env = (setupTrace ++ [.navigate1, .navigate2, .clickDial1,
        .waitStart .infoW 10, .waitHit .infoW t,
        .readInfo (env.infoText (t + 1)), .readCode env.magiccode,
        .printCode env.magiccode, .typeCode env.magiccode, .clickDial2,
        .waitStart .top1W 10, .waitHit .top1W t1, .waitStart .top2W 10,
        .waitHit .top2W t2, .pickFile, .settle 3, .compare] ++
        teardownTrace, .artifactMissing)) ∨
    (∃ t t1 t2 f, infoRes env = some t ∧
      startsWithStr "Waiting for the other" (env.infoText (t + 1)) = true ∧
      env.magiccode.length ≠ 0 ∧ top1Res env = some t1 ∧
      top2Res env = some t2 ∧ env.outFile = some f ∧
      cmp (inFile env) f = false ∧
      run env = (setupTrace ++ [.navigate1, .navigate2, .clickDial1,
        .waitStart .infoW 10, .waitHit .infoW t,
        .readInfo (env.infoText (t + 1)), .readCode env.magiccode,
        .printCode env.magiccode, .typeCode env.magiccode, .clickDial2,
        .waitStart .top1W 10, .waitHit .top1W t1, .waitStart .top2W 10,
        .waitHit .top2W t2, .pickFile, .settle 3, .compare] ++
        teardownTrace, .artifactMismatch)) ∨
    (∃ t t1 t2 f, infoRes env = some t ∧
      startsWithStr "Waiting for the other" (env.infoText (t + 1)) = true ∧
      env.magiccode.length ≠ 0 ∧ top1Res env = some t1 ∧
      top2Res env = some t2 ∧ env.outFile = some f ∧
      cmp (inFile env) f = true ∧
      run env = (setupTrace ++ [.navigate1, .navigate2, .clickDial1,
        .waitStart .infoW 10, .waitHit .infoW t,
        .readInfo (env.infoText (t + 1)), .readCode env.magiccode,
        .printCode env.magiccode, .typeCode env.magiccode, .clickDial2,
        .waitStart .top1W 10, .waitHit .top1W t1, .waitStart .top2W 10,
        .waitHit .top2W t2, .pickFile, .settle 3, .compare,
        .printSuccess] ++ teardownTrace, .success)) := by
  rcases hi : infoRes env with _ | t
  · exact Or.inl ⟨rfl, by simp [run, bodyRun, hi]⟩
  · rcases hp : startsWithStr "Waiting for the other" (env.infoText (t + 1))
    · exact Or.inr (Or.inl ⟨t, rfl, hp, by simp [run, bodyRun, hi, hp]⟩)
    · by_cases hc : env.magiccode.length = 0
      · exact Or.inr (Or.inr (Or.inl ⟨t, rfl, hp, hc,
          by simp [run, bodyRun, hi, hp, hc]⟩))
      · rcases h1 : top1Res env with _ | t1
        · exact Or.inr (Or.inr (Or.inr (Or.inl ⟨t, rfl, hp, hc, rfl,
            by simp [run, bodyRun, hi, hp, hc, h1]⟩)))
        · rcases h2 : top2Res env with _ | t2
          · exact Or.inr (Or.inr (Or.inr (Or.inr (Or.inl
              ⟨t, t1, rfl, hp, hc, rfl, rfl,
               by simp [run, bodyRun, hi, hp, hc, h1, h2]⟩))))
          · rcases ho : env.outFile with _ | f
            · exact Or.inr (Or.inr (Or.inr (Or.inr (Or.inr (Or.inl
                ⟨t, t1, t2, rfl, hp, hc, rfl, rfl, rfl,
                 by simp [run, bodyRun, hi, hp, hc, h1, h2, ho]⟩)))))
            · rcases hcmp : cmp (inFile env) f
              · exact Or.inr (Or.inr (Or.inr (Or.inr (Or.inr (Or.inr
                  (Or.inl ⟨t, t1, t2, f, rfl, hp, hc, rfl, rfl, rfl, hcmp,
                   by simp [run, bodyRun, hi, hp, hc, h1, h2, ho, hcmp]⟩))))))
              · exact Or.inr (Or.inr (Or.inr (Or.inr (Or.inr (Or.inr
                  (Or.inr ⟨t, t1, t2, f, rfl, hp, hc, rfl, rfl, rfl, hcmp,
                   by simp [run, bodyRun, hi, hp, hc, h1, h2, ho, hcmp]⟩))))))

/-- Lifts an ordering fact about the protocol body to the full run trace. -/
theorem sublist_run {l body : List Event} (h : l.Sublist body) :
    l.Sublist (setupTrace ++ body ++ teardownTrace) := by
  rw [List.append_assoc]
  exact (h.trans (List.sublist_append_left body teardownTrace)).trans
    (List.sublist_append_right setupTrace (body ++ teardownTrace))

/-- Claim C6: any pairing code the script reads is the initiator's
`magiccode` value and is read only after the first wait observed the
waiting-for-peer state; and whenever the responder's dial control is
clicked, the read code was typed into the responder strictly before that
click. -/
theorem c6_code_ordering (env : Env) :
    (∀ c, Event.readCode c ∈ (run env).1 →
       c = env.magiccode ∧
       ∃ t, infoRes env = some t ∧
         [Event.waitHit .infoW t, Event.readCode c].Sublist (run env).1) ∧
    (Event.clickDial2 ∈ (run env).1 →
       [Event.readCode env.magiccode, Event.typeCode env.magiccode,
        Event.clickDial2].Sublist (run env).1) := by
  rcases run_branches env with
    ⟨hi, hrun⟩ |
    ⟨t, hi, hp, hrun⟩ |
    ⟨t, hi, hp, hc, hrun⟩ |
    ⟨t, hi, hp, hc, h1, hrun⟩ |
    ⟨t, t1, hi, hp, hc, h1, h2, hrun⟩ |
    ⟨t, t1, t2, hi, hp, hc, h1, h2, ho, hrun⟩ |
    ⟨t, t1, t2, f, hi, hp, hc, h1, h2, ho, hcmp, hrun⟩ |
    ⟨t, t1, t2, f, hi, hp, hc, h1, h2, ho, hcmp, hrun⟩
  · exact ⟨by simp [hrun, setupTrace, teardownTrace],
      by simp [hrun, setupTrace, teardownTrace]⟩
  · exact ⟨by simp [hrun, setupTrace, teardownTrace],
      by simp [hrun, setupTrace, teardownTrace]⟩
  · refine ⟨fun c hc => ?_, by simp [hrun, setupTrace, teardownTrace]⟩
    rw [hrun] at hc
    simp [setupTrace, teardownTrace] at hc
    subst hc
    refine ⟨rfl, t, hi, ?_⟩
    rw [hrun]
    apply sublist_run
    repeat
      first
      | exact List.nil_sublist _
      | apply List.Sublist.cons₂
      | apply List.Sublist.cons
  · refine ⟨fun c hc => ?_, fun _ => ?_⟩
    · rw [hrun] at hc
      simp [setupTrace, teardownTrace] at hc
      subst hc
      refine ⟨rfl, t, hi, ?_⟩
      rw [hrun]
      apply sublist_run
      repeat
        first
        | exact List.nil_sublist _
        | apply List.Sublist.cons₂
        | apply List.Sublist.cons
    · rw [hrun]
      apply sublist_run
      repeat
        first
        | exact List.nil_sublist _
        | apply List.Sublist.cons₂
        | apply List.Sublist.cons
  · refine ⟨fun c hc => ?_, fun _ => ?_⟩
    · rw [hrun] at hc
      simp [setupTrace, teardownTrace] at hc
      subst hc
      refine ⟨rfl, t, hi, ?_⟩
      rw [hrun]
      apply sublist_run
      repeat
        first
        | exact List.nil_sublist _
        | apply List.Sublist.cons₂
        | apply List.Sublist.cons
    · rw [hrun]
      apply sublist_run
      repeat
        first
        | exact List.nil_sublist _
        | apply List.Sublist.cons₂
        | apply List.Sublist.cons
  · refine ⟨fun c hc => ?_, fun _ => ?_⟩
    · rw [hrun] at hc
      simp [setupTrace, teardownTrace] at hc
      subst hc
      refine ⟨rfl, t, hi, ?_⟩
      rw [hrun]
      apply sublist_run
      repeat
        first
        | exact List.nil_sublist _
        | apply List.Sublist.cons₂
        | apply List.Sublist.cons
    · rw [hrun]
      apply sublist_run
      repeat
        first
        | exact List.nil_sublist _
        | apply List.Sublist.cons₂
        | apply List.Sublist.cons
  · refine ⟨fun c hc => ?_, fun _ => ?_⟩
    · rw [hrun] at hc
      simp [setupTrace, teardownTrace] at hc
      subst hc
      refine ⟨rfl, t, hi, ?_⟩
      rw [hrun]
      apply sublist_run
      repeat
        first
        | exact List.nil_sublist _
        | apply List.Sublist.cons₂
        | apply List.Sublist.cons
    · rw [hrun]
      apply sublist_run
      repeat
        first
        | exact List.nil_sublist _
        | apply List.Sublist.cons₂
        | apply List.Sublist.cons
  · refine ⟨fun c hc => ?_, fun _ => ?_⟩
    · rw [hrun] at hc
      simp [setupTrace, teardownTrace] at hc
      subst hc
      refine ⟨rfl, t, hi, ?_⟩
      rw [hrun]
      apply sublist_run
      repeat
        first
        | exact List.nil_sublist _
        | apply List.Sublist.cons₂
        | apply List.Sublist.cons
    · rw [hrun]
      apply sublist_run
      repeat
        first
        | exact List.nil_sublist _
        | apply List.Sublist.cons₂
        | apply List.Sublist.cons

/-- Claim C5: success requires both post-dial visibility waits to have
been satisfied and the final comparison to have passed, with both waits
started only after the responder's dial click; and once the responder has
dialled, a timeout of either visibility wait makes the run fail with a
timeout outcome; in particular an environment in which the initiator's
paired indicator never becomes visible (as when a non-matching code was
entered) can never report success. -/
theorem c5_pairing_waits (env : Env) :
    ((run env).2 = .success →
       (∃ t1, top1Res env = some t1) ∧ (∃ t2, top2Res env = some t2) ∧
       (∃ f, env.outFile = some f ∧ cmp (inFile env) f = true) ∧
       [Event.clickDial2, Event.waitStart .top1W 10,
        Event.waitStart .top2W 10].Sublist (run env).1) ∧
    (Event.clickDial2 ∈ (run env).1 →
       (top1Res env = none ∨ top2Res env = none) →
       (run env).2 ≠ .success ∧ ∃ w, (run env).2 = .timeout w) ∧
    ((∀ t < 20, env.top1Visible t = false) → (run env).2 ≠ .success) := by
  rcases run_branches env with
    ⟨hi, hrun⟩ |
    ⟨t, hi, hp, hrun⟩ |
    ⟨t, hi, hp, hc, hrun⟩ |
    ⟨t, hi, hp, hc, h1, hrun⟩ |
    ⟨t, t1, hi, hp, hc, h1, h2, hrun⟩ |
    ⟨t, t1, t2, hi, hp, hc, h1, h2, ho, hrun⟩ |
    ⟨t, t1, t2, f, hi, hp, hc, h1, h2, ho, hcmp, hrun⟩ |
    ⟨t, t1, t2, f, hi, hp, hc, h1, h2, ho, hcmp, hrun⟩
  · exact ⟨by simp [hrun], by simp [hrun, setupTrace, teardownTrace],
      by simp [hrun]⟩
  · exact ⟨by simp [hrun], by simp [hrun, setupTrace, teardownTrace],
      by simp [hrun]⟩
  · exact ⟨by simp [hrun], by simp [hrun, setupTrace, teardownTrace],
      by simp [hrun]⟩
  · refine ⟨by simp [hrun],
      fun _ _ => ⟨by simp [hrun], .top1W, by simp [hrun]⟩, by simp [hrun]⟩
  · refine ⟨by simp [hrun],
      fun _ _ => ⟨by simp [hrun], .top2W, by simp [hrun]⟩, by simp [hrun]⟩
  · exact ⟨by simp [hrun], fun _ hor => by simp [h1, h2] at hor,
      by simp [hrun]⟩
  · exact ⟨by simp [hrun], fun _ hor => by simp [h1, h2] at hor,
      by simp [hrun]⟩
  · refine ⟨fun _ => ⟨⟨t1, h1⟩, ⟨t2, h2⟩, ⟨f, ho, hcmp⟩, ?_⟩,
      fun _ hor => by simp [h1, h2] at hor, fun hv => ?_⟩
    · rw [hrun]
      apply sublist_run
      repeat
        first
        | exact List.nil_sublist _
        | apply List.Sublist.cons₂
        | apply List.Sublist.cons
    · have h1v := wait_eq_some h1
      have hfalse : env.top1Visible t1 = false := hv t1 (by omega)
      simp [hfalse] at h1v

/-- True when every step of the pairing rendezvous succeeded: the first
wait was satisfied, the line-61 assertion passed, the code was non-empty
and both visibility waits were satisfied. -/
def pairedOk (env : Env) : Bool :=
  match infoRes env with
  | none => false
  | some t =>
    startsWithStr "Waiting for the other" (env.infoText (t + 1)) &&
    env.magiccode.length != 0 &&
    (top1Res env).isSome && (top2Res env).isSome

/-- The failure the pairing rendezvous itself produces when it fails:
the first failing step of the protocol, `none` when pairing succeeds. -/
def pairingFailure (env : Env) : Option Outcome :=
  match infoRes env with
  | none => some (.timeout .infoW)
  | some t =>
    if startsWithStr "Waiting for the other" (env.infoText (t + 1)) then
      if env.magiccode.length = 0 then some .emptyCode
      else
        match top1Res env with
        | none => some (.timeout .top1W)
        | some _ =>
          match top2Res env with
          | none => some (.timeout .top2W)
          | some _ => none
    else some .assertInfoPrefixFailed

/-- Claim C7: a run ends in the mismatch assertion exactly when pairing
succeeded, the responder's output file exists and the comparison returns
false; it ends in the missing-file error exactly when pairing succeeded
and the output file was never created; and when pairing fails, its
failure is the run's outcome unchanged and no transfer-verification step
(file selection, settle sleep, comparison) is executed. -/
theorem c7_transfer_verification (env : Env) :
    ((run env).2 = .artifactMismatch ↔
       pairedOk env = true ∧
       ∃ f, env.outFile = some f ∧ cmp (inFile env) f = false) ∧
    ((run env).2 = .artifactMissing ↔
       pairedOk env = true ∧ env.outFile = none) ∧
    (∀ o, pairingFailure env = some o →
       (run env).2 = o ∧ Event.compare ∉ (run env).1 ∧
       Event.pickFile ∉ (run env).1 ∧
       (∀ s, Event.settle s ∉ (run env).1)) := by
  rcases run_branches env with
    ⟨hi, hrun⟩ |
    ⟨t, hi, hp, hrun⟩ |
    ⟨t, hi, hp, hc, hrun⟩ |
    ⟨t, hi, hp, hc, h1, hrun⟩ |
    ⟨t, t1, hi, hp, hc, h1, h2, hrun⟩ |
    ⟨t, t1, t2, hi, hp, hc, h1, h2, ho, hrun⟩ |
    ⟨t, t1, t2, f, hi, hp, hc, h1, h2, ho, hcmp, hrun⟩ |
    ⟨t, t1, t2, f, hi, hp, hc, h1, h2, ho, hcmp, hrun⟩
  · refine ⟨by simp [hrun, pairedOk, hi], by simp [hrun, pairedOk, hi], ?_⟩
    intro o hoo
    simp [pairingFailure, hi] at hoo
    subst hoo
    exact ⟨by simp [hrun], by simp [hrun, setupTrace, teardownTrace],
      by simp [hrun, setupTrace, teardownTrace],
      by simp [hrun, setupTrace, teardownTrace]⟩
  · refine ⟨by simp [hrun, pairedOk, hi, hp],
      by simp [hrun, pairedOk, hi, hp], ?_⟩
    intro o hoo
    simp [pairingFailure, hi, hp] at hoo
    subst hoo
    exact ⟨by simp [hrun], by simp [hrun, setupTrace, teardownTrace],
      by simp [hrun, setupTrace, teardownTrace],
      by simp [hrun, setupTrace, teardownTrace]⟩
  · refine ⟨by simp [hrun, pairedOk, hi, hp, hc],
      by simp [hrun, pairedOk, hi, hp, hc], ?_⟩
    intro o hoo
    simp [pairingFailure, hi, hp, hc] at hoo
    subst hoo
    exact ⟨by simp [hrun], by simp [hrun, setupTrace, teardownTrace],
      by simp [hrun, setupTrace, teardownTrace],
      by simp [hrun, setupTrace, teardownTrace]⟩
  · refine ⟨by simp [hrun, pairedOk, hi, hp, hc, h1],
      by simp [hrun, pairedOk, hi, hp, hc, h1], ?_⟩
    intro o hoo
    simp [pairingFailure, hi, hp, hc, h1] at hoo
    subst hoo
    exact ⟨by simp [hrun], by simp [hrun, setupTrace, teardownTrace],
      by simp [hrun, setupTrace, teardownTrace],
      by simp [hrun, setupTrace, teardownTrace]⟩
  · refine ⟨by simp [hrun, pairedOk, hi, hp, hc, h1, h2],
      by simp [hrun, pairedOk, hi, hp, hc, h1, h2], ?_⟩
    intro o hoo
    simp [pairingFailure, hi, hp, hc, h1, h2] at hoo
    subst hoo
    exact ⟨by simp [hrun], by simp [hrun, setupTrace, teardownTrace],
      by simp [hrun, setupTrace, teardownTrace],
      by simp [hrun, setupTrace, teardownTrace]⟩
  · refine ⟨by simp [hrun, pairedOk, hi, hp, hc, h1, h2, ho],
      by simp [hrun, pairedOk, hi, hp, hc, h1, h2, ho], ?_⟩
    intro o hoo
    simp [pairingFailure, hi, hp, hc, h1, h2] at hoo
  · refine ⟨by simp [hrun, pairedOk, hi, hp, hc, h1, h2, ho, hcmp],
      by simp [hrun, pairedOk, hi, hp, hc, h1, h2, ho], ?_⟩
    intro o hoo
    simp [pairingFailure, hi, hp, hc, h1, h2] at hoo
  · refine ⟨by simp [hrun, pairedOk, hi, hp, hc, h1, h2, ho, hcmp],
      by simp [hrun, pairedOk, hi, hp, hc, h1, h2, ho], ?_⟩
    intro o hoo
    simp [pairingFailure, hi, hp, hc, h1, h2] at hoo

/-- Recognizes the one fixed unconditional sleep of the script. -/
def isSettle (e : Event) : Bool :=
  match e with
  | .settle _ => true
  | _ => false

/-- Claim C8: a run's trace never holds more than one fixed sleep, any
fixed sleep in it is the 3-second transfer settle window, and it occurs
exactly when the pairing rendezvous succeeded, strictly after the
file-selection action and strictly before the comparison. -/
theorem c8_single_sleep (env : Env) :
    (run env).1.countP isSettle ≤ 1 ∧
    (∀ s, Event.settle s ∈ (run env).1 → s = 3) ∧
    (Event.settle 3 ∈ (run env).1 ↔ pairedOk env = true) ∧
    (Event.settle 3 ∈ (run env).1 →
       [Event.pickFile, Event.settle 3, Event.compare].Sublist
         (run env).1) := by
  rcases run_branches env with
    ⟨hi, hrun⟩ |
    ⟨t, hi, hp, hrun⟩ |
    ⟨t, hi, hp, hc, hrun⟩ |
    ⟨t, hi, hp, hc, h1, hrun⟩ |
    ⟨t, t1, hi, hp, hc, h1, h2, hrun⟩ |
    ⟨t, t1, t2, hi, hp, hc, h1, h2, ho, hrun⟩ |
    ⟨t, t1, t2, f, hi, hp, hc, h1, h2, ho, hcmp, hrun⟩ |
    ⟨t, t1, t2, f, hi, hp, hc, h1, h2, ho, hcmp, hrun⟩
  · refine ⟨by simp [hrun, setupTrace, teardownTrace, List.countP_cons,
        isSettle],
      by simp [hrun, setupTrace, teardownTrace],
      by simp [hrun, setupTrace, teardownTrace, pairedOk, hi],
      fun hmem => ?_⟩
    rw [hrun] at hmem
    simp [setupTrace, teardownTrace] at hmem
  · refine ⟨by simp [hrun, setupTrace, teardownTrace, List.countP_cons,
        isSettle],
      by simp [hrun, setupTrace, teardownTrace],
      by simp [hrun, setupTrace, teardownTrace, pairedOk, hi, hp],
      fun hmem => ?_⟩
    rw [hrun] at hmem
    simp [setupTrace, teardownTrace] at hmem
  · refine ⟨by simp [hrun, setupTrace, teardownTrace, List.countP_cons,
        isSettle],
      by simp [hrun, setupTrace, teardownTrace],
      by simp [hrun, setupTrace, teardownTrace, pairedOk, hi, hp, hc],
      fun hmem => ?_⟩
    rw [hrun] at hmem
    simp [setupTrace, teardownTrace] at hmem
  · refine ⟨by simp [hrun, setupTrace, teardownTrace, List.countP_cons,
        isSettle],
      by simp [hrun, setupTrace, teardownTrace],
      by simp [hrun, setupTrace, teardownTrace, pairedOk, hi, hp, hc, h1],
      fun hmem => ?_⟩
    rw [hrun] at hmem
    simp [setupTrace, teardownTrace] at hmem
  · refine ⟨by simp [hrun, setupTrace, teardownTrace, List.countP_cons,
        isSettle],
      by simp [hrun, setupTrace, teardownTrace],
      by simp [hrun, setupTrace, teardownTrace, pairedOk, hi, hp, hc, h1,
        h2],
      fun hmem => ?_⟩
    rw [hrun] at hmem
    simp [setupTrace, teardownTrace] at hmem
  · refine ⟨by simp [hrun, setupTrace, teardownTrace, List.countP_cons,
        isSettle],
      by simp [hrun, setupTrace, teardownTrace],
      by simp [hrun, setupTrace, teardownTrace, pairedOk, hi, hp, hc, h1,
        h2],
      fun _ => ?_⟩
    rw [hrun]
    apply sublist_run
    repeat
      first
      | exact List.nil_sublist _
      | apply List.Sublist.cons₂
      | apply List.Sublist.cons
  · refine ⟨by simp [hrun, setupTrace, teardownTrace, List.countP_cons,
        isSettle],
      by simp [hrun, setupTrace, teardownTrace],
      by simp [hrun, setupTrace, teardownTrace, pairedOk, hi, hp, hc, h1,
        h2],
      fun _ => ?_⟩
    rw [hrun]
    apply sublist_run
    repeat
      first
      | exact List.nil_sublist _
      | apply List.Sublist.cons₂
      | apply List.Sublist.cons
  · refine ⟨by simp [hrun, setupTrace, teardownTrace, List.countP_cons,
        isSettle],
      by simp [hrun, setupTrace, teardownTrace],
      by simp [hrun, setupTrace, teardownTrace, pairedOk, hi, hp, hc, h1,
        h2],
      fun _ => ?_⟩
    rw [hrun]
    apply sublist_run
    repeat
      first
      | exact List.nil_sublist _
      | apply List.Sublist.cons₂
      | apply List.Sublist.cons

/-- Claim C10: every bounded wait a run starts is given the same
10-second timeout, and every fixed sleep in it lasts 3 seconds. -/
theorem c10_timing_constants (env : Env) :
    (∀ w s, Event.waitStart w s ∈ (run env).1 → s = 10) ∧
    (∀ s, Event.settle s ∈ (run env).1 → s = 3) := by
  rcases run_branches env with
    ⟨hi, hrun⟩ |
    ⟨t, hi, hp, hrun⟩ |
    ⟨t, hi, hp, hc, hrun⟩ |
    ⟨t, hi, hp, hc, h1, hrun⟩ |
    ⟨t, t1, hi, hp, hc, h1, h2, hrun⟩ |
    ⟨t, t1, t2, hi, hp, hc, h1, h2, ho, hrun⟩ |
    ⟨t, t1, t2, f, hi, hp, hc, h1, h2, ho, hcmp, hrun⟩ |
    ⟨t, t1, t2, f, hi, hp, hc, h1, h2, ho, hcmp, hrun⟩ <;>
  refine ⟨fun w s h => ?_, fun s h => ?_⟩ <;>
  rw [hrun] at h <;>
  simp [setupTrace, teardownTrace] at h <;>
  tauto

/-- A fully cooperative environment: the transfer completes and the
responder's download has the same bytes as the artifact (with a different
mtime, so the comparison takes the byte-for-byte path). -/
def happyEnv : Env where
  artifact := [0, 1, 2]
  inMtime := 0
  infoText := fun _ => "Waiting for the other side to join."
  magiccode := "7-grim-alpine"
  top1Visible := fun _ => true
  top2Visible := fun _ => true
  outFile := some ⟨[0, 1, 2], 5⟩

/-- An environment where pairing proceeds but neither `top` element ever
becomes visible — the observable behaviour when the responder dialled
with a non-matching code. -/
def noTopEnv : Env where
  artifact := [0]
  inMtime := 0
  infoText := fun _ => "Waiting for the other side to join."
  magiccode := "7-grim-alpine"
  top1Visible := fun _ => false
  top2Visible := fun _ => false
  outFile := none

/-- An environment where the responder's download exists but holds
different bytes of a different length than the artifact. -/
def mismatchEnv : Env where
  artifact := [0, 1, 2]
  inMtime := 0
  infoText := fun _ => "Waiting for the other side to join."
  magiccode := "7-grim-alpine"
  top1Visible := fun _ => true
  top2Visible := fun _ => true
  outFile := some ⟨[9], 5⟩

theorem c5_pairing_waits_witness :
    (∀ t < 20, noTopEnv.top1Visible t = false) ∧
    (run noTopEnv).2 ≠ .success :=
  ⟨by decide, (c5_pairing_waits noTopEnv).2.2 (by decide)⟩

theorem c6_code_ordering_witness :
    Event.clickDial2 ∈ (run happyEnv).1 ∧
    [Event.readCode happyEnv.magiccode, Event.typeCode happyEnv.magiccode,
     Event.clickDial2].Sublist (run happyEnv).1 :=
  ⟨by decide, (c6_code_ordering happyEnv).2 (by decide)⟩

theorem c7_transfer_verification_witness :
    (run mismatchEnv).2 = .artifactMismatch :=
  (c7_transfer_verification mismatchEnv).1.mpr
    ⟨by decide, ⟨[9], 5⟩, rfl, by decide⟩

theorem c8_single_sleep_witness :
    Event.settle 3 ∈ (run happyEnv).1 ∧
    [Event.pickFile, Event.settle 3, Event.compare].Sublist
      (run happyEnv).1 :=
  ⟨by decide, (c8_single_sleep happyEnv).2.2.2 (by decide)⟩

theorem c10_timing_constants_witness :
    Event.waitStart .infoW 10 ∈ (run happyEnv).1 ∧
    Event.settle 3 ∈ (run happyEnv).1 ∧ (3 : Nat) = 3 :=
  ⟨by decide, by decide, (c10_timing_constants happyEnv).2 3 (by decide)⟩

/-- An environment exhibiting the shallow-comparison escape of
`filecmp.cmp`: the responder's download has the same size and the same
mtime as the input artifact, but entirely different bytes. -/
def shallowEnv : Env where
  artifact := List.replicate 102400 0
  inMtime := 7
  infoText := fun _ => "Waiting for the other side to join."
  magiccode := "7-grim-alpine"
  top1Visible := fun _ => true
  top2Visible := fun _ => true
  outFile := some ⟨List.replicate 102400 1, 7⟩

/-- Claim C1 is false as stated: a run over a 102400-byte artifact can
reach the success marker although the responder's file differs from the
artifact in every byte, because `filecmp.cmp` is called with its default
`shallow=True` and reports equality from the stat signatures (equal size
and mtime) without reading any bytes. -/
theorem c1_counterexample :
    shallowEnv.artifact.length = 100 <<< 10 ∧
    (run shallowEnv).2 = .success ∧
    ∃ f, shallowEnv.outFile = some f ∧ f.bytes ≠ shallowEnv.artifact := by
  have hi : infoRes shallowEnv = some 0 := by decide
  have hp : startsWithStr "Waiting for the other"
      (shallowEnv.infoText (0 + 1)) = true := by decide
  have hc : ¬shallowEnv.magiccode.length = 0 := by decide
  have h1 : top1Res shallowEnv = some 0 := by decide
  have h2 : top2Res shallowEnv = some 0 := by decide
  have ho : shallowEnv.outFile = some ⟨List.replicate 102400 1, 7⟩ := rfl
  have hsig : sig (inFile shallowEnv) = sig ⟨List.replicate 102400 1, 7⟩ := by
    show ((List.replicate 102400 (0 : Nat)).length, 7)
      = ((List.replicate 102400 (1 : Nat)).length, 7)
    rw [List.length_replicate, List.length_replicate]
  have hcmp : cmp (inFile shallowEnv) ⟨List.replicate 102400 1, 7⟩ = true := by
    unfold cmp
    rw [if_pos hsig]
  have hlen : shallowEnv.artifact.length = 100 <<< 10 := by
    show (List.replicate 102400 (0 : Nat)).length = 100 <<< 10
    rw [List.length_replicate]
    decide
  refine ⟨hlen, ?_, ⟨List.replicate 102400 1, 7⟩, rfl, ?_⟩
  · simp only [run, bodyRun, hi, hp, hc, h1, h2, ho, hcmp, if_true,
      eq_self_iff_true, ite_true, ite_false, if_false]
  · intro h
    have h' : List.replicate 102400 (1 : Nat) = List.replicate 102400 0 := h
    have hmem : (1 : Nat) ∈ List.replicate 102400 (1 : Nat) :=
      List.mem_replicate.mpr ⟨by norm_num, rfl⟩
    rw [h'] at hmem
    exact absurd (List.eq_of_mem_replicate hmem) one_ne_zero

/-- Claim C1 (amended): the 102400-byte artifact is written before the
protocol starts, and on every successful run the responder's file exists
and has the artifact's exact length, and either the two files' stat
signatures (size, mtime) coincide — in which case `filecmp.cmp` reported
equality without reading bytes — or the two files are byte-identical.
Byte-exactness of the final comparison holds only in the second case. -/
theorem c1_shallow_comparison (env : Env)
    (hs : (run env).2 = .success) :
    Event.writeArtifact (100 <<< 10) ∈ (run env).1 ∧
    ∃ f, env.outFile = some f ∧
      env.artifact.length = f.bytes.length ∧
      (sig (inFile env) = sig f ∨ env.artifact = f.bytes) := by
  rcases run_branches env with
    ⟨hi, hrun⟩ |
    ⟨t, hi, hp, hrun⟩ |
    ⟨t, hi, hp, hc, hrun⟩ |
    ⟨t, hi, hp, hc, h1, hrun⟩ |
    ⟨t, t1, hi, hp, hc, h1, h2, hrun⟩ |
    ⟨t, t1, t2, hi, hp, hc, h1, h2, ho, hrun⟩ |
    ⟨t, t1, t2, f, hi, hp, hc, h1, h2, ho, hcmp, hrun⟩ |
    ⟨t, t1, t2, f, hi, hp, hc, h1, h2, ho, hcmp, hrun⟩
  · simp [hrun] at hs
  · simp [hrun] at hs
  · simp [hrun] at hs
  · simp [hrun] at hs
  · simp [hrun] at hs
  · simp [hrun] at hs
  · simp [hrun] at hs
  · refine ⟨by simp [hrun, setupTrace], f, ho, ?_⟩
    by_cases hsig : sig (inFile env) = sig f
    · exact ⟨congrArg Prod.fst hsig, Or.inl hsig⟩
    · unfold cmp at hcmp
      rw [if_neg hsig] at hcmp
      by_cases hlen : (inFile env).bytes.length ≠ f.bytes.length
      · rw [if_pos hlen] at hcmp
        exact absurd hcmp (by simp)
      · rw [if_neg hlen] at hcmp
        have hbeq : (inFile env).bytes = f.bytes := by simpa using hcmp
        exact ⟨congrArg List.length hbeq, Or.inr hbeq⟩

theorem c1_shallow_comparison_witness :
    (run happyEnv).2 = .success ∧
    (Event.writeArtifact (100 <<< 10) ∈ (run happyEnv).1 ∧
     ∃ f, happyEnv.outFile = some f ∧
       happyEnv.artifact.length = f.bytes.length ∧
       (sig (inFile happyEnv) = sig f ∨ happyEnv.artifact = f.bytes)) :=
  ⟨by decide, c1_shallow_comparison happyEnv (by decide)⟩

end WWSmoke
